import Mathlib

/-!
Verification of the multi-backend write/read reconciliation layer of the
Iftar Shondhane event-listing application. The definitions below are a
shallow embedding of the client reconciliation code (handleSubmit,
fetchEvents, deleteEvent) and of the local server endpoints
(GET /api/events, POST /api/events, POST /api/events/delete,
POST /api/drive/save). External services (the primary and secondary
document stores, the drive API, the SQLite engine) are modelled through
their observable request/response behaviour at the call boundary.
-/

namespace IftarShondhane

/-- Model of a JavaScript number as held in the submission form state:
either an ordinary finite numeric value, or the NaN produced by
parseFloat on non-numeric text. -/
inductive JsNum where
  | num (q : ℚ)
  | nan
deriving DecidableEq

/-- Identifier of an event as seen by the client: the Event interface
declares id as string or number (string document handles from the
secondary store, integer surrogate keys from the relational stores). -/
inductive JsId where
  | str (s : String)
  | num (n : Int)
deriving DecidableEq

/-- The formData state of the submission form: every descriptive field is
a plain string initialised to the empty string, and the two coordinates
start out undefined and receive the result of parseFloat once the user
edits them. -/
structure EventForm where
  name : String
  type : String
  district : String
  upazila : String
  village : String
  address : String
  date_range : String
  start_time : String
  iftar_time : String
  contact : String
  description : String
  image_url : String
  lat : Option JsNum
  lng : Option JsNum
  link_url : String
  event_date : String
  event_day : String
deriving DecidableEq

/-- The newEvent object built at the top of handleSubmit: the form data
extended with the client-assigned created_at timestamp string. -/
structure NewEvent where
  form : EventForm
  created_at : String
deriving DecidableEq

/-- An event-shaped JSON object as it crosses an HTTP or SDK boundary.
JSON has no undefined value, so an absent key and an explicit null both
collapse to none, and a NaN number serialises as null. -/
structure JsonEvent where
  name : Option String
  type : Option String
  district : Option String
  upazila : Option String
  village : Option String
  address : Option String
  date_range : Option String
  start_time : Option String
  iftar_time : Option String
  contact : Option String
  description : Option String
  image_url : Option String
  lat : Option ℚ
  lng : Option ℚ
  link_url : Option String
  event_date : Option String
  event_day : Option String
  created_at : Option String
deriving DecidableEq

/-- JSON serialisation of a form coordinate: an undefined field is
dropped entirely and a NaN value is written as null, so both arrive as an
absent value on the wire. -/
def jsonNum : Option JsNum → Option ℚ
  | none => none
  | some JsNum.nan => none
  | some (JsNum.num q) => some q

/-- JSON image of the raw form data, exactly as handleSubmit sends it to
the drive endpoint in the body eventData field: note that the form state
has no created_at key, so none is sent. -/
def serializeEventForm (f : EventForm) : JsonEvent where
  name := some f.name
  type := some f.type
  district := some f.district
  upazila := some f.upazila
  village := some f.village
  address := some f.address
  date_range := some f.date_range
  start_time := some f.start_time
  iftar_time := some f.iftar_time
  contact := some f.contact
  description := some f.description
  image_url := some f.image_url
  lat := jsonNum f.lat
  lng := jsonNum f.lng
  link_url := some f.link_url
  event_date := some f.event_date
  event_day := some f.event_day
  created_at := none

/-- JSON image of the newEvent object, as sent to the primary store
insert, the secondary store addDoc and the local POST /api/events call:
the form fields plus the client-assigned created_at. -/
def serializeNewEvent (e : NewEvent) : JsonEvent :=
  { serializeEventForm e.form with created_at := some e.created_at }

/-- Outcomes of the backend calls a run of handleSubmit can make; each
flag says whether the corresponding call fails if it is attempted. -/
structure SubmitEnv where
  supabaseError : Bool
  firebaseFails : Bool
  cacheFails : Bool
  driveFails : Bool
deriving DecidableEq

/-- Observable result of a run of handleSubmit: whether the user sees the
success alert, the JSON payload of each backend write that was attempted
(none when the step was never reached or was skipped), and the per-step
outcome where a step ran (its failure is only logged, never surfaced). -/
structure SubmitOutcome where
  success : Bool
  supabaseWrite : Option JsonEvent
  firebaseWrite : Option JsonEvent
  firebaseOk : Option Bool
  cacheWrite : Option JsonEvent
  cacheOk : Option Bool
  driveWrite : Option JsonEvent
  driveOk : Option Bool
deriving DecidableEq

/-- Shallow embedding of handleSubmit. The function builds newEvent from
the form data and the current time, inserts it into the primary store
(a failure there throws to the outer catch, which alerts failure before
any other backend is touched), then best-effort writes the same newEvent
to the secondary store and to the local cache, each in its own try/catch
that swallows the failure, and finally, when a drive account is
connected, posts the raw form data (not newEvent) to the drive endpoint,
again swallowing any failure, before alerting success. -/
def handleSubmit (form : EventForm) (now : String) (isGoogleConnected : Bool)
    (env : SubmitEnv) : SubmitOutcome :=
  let newEvent : NewEvent := { form := form, created_at := now }
  if env.supabaseError then
    { success := false
      supabaseWrite := some (serializeNewEvent newEvent)
      firebaseWrite := none
      firebaseOk := none
      cacheWrite := none
      cacheOk := none
      driveWrite := none
      driveOk := none }
  else
    { success := true
      supabaseWrite := some (serializeNewEvent newEvent)
      firebaseWrite := some (serializeNewEvent newEvent)
      firebaseOk := some (!env.firebaseFails)
      cacheWrite := some (serializeNewEvent newEvent)
      cacheOk := some (!env.cacheFails)
      driveWrite := if isGoogleConnected then some (serializeEventForm form) else none
      driveOk := if isGoogleConnected then some (!env.driveFails) else none }

/-- All JSON payloads that a run of handleSubmit put on the wire, in
program order. -/
def SubmitOutcome.payloads (o : SubmitOutcome) : List JsonEvent :=
  o.supabaseWrite.toList ++ o.firebaseWrite.toList ++ o.cacheWrite.toList ++ o.driveWrite.toList

/-- A row of the events table created by the server at startup: an
auto-increment integer key and one nullable column per event field. -/
structure SqliteRow where
  id : Int
  name : Option String
  type : Option String
  district : Option String
  upazila : Option String
  village : Option String
  address : Option String
  date_range : Option String
  start_time : Option String
  iftar_time : Option String
  contact : Option String
  description : Option String
  image_url : Option String
  lat : Option ℚ
  lng : Option ℚ
  link_url : Option String
  event_date : Option String
  event_day : Option String
  created_at : Option String
deriving DecidableEq

/-- JavaScript truthiness coercion used by the insert handler on the
string fields: a missing value and the empty string both become null. -/
def orNull : Option String → Option String
  | none => none
  | some s => if s = "" then none else some s

/-- The POST /api/events insert handler: every string field is stored
through the truthiness coercion, the coordinates keep their value unless
nullish, and created_at falls back to the server clock only when the
client sent none (or an empty string). -/
def insertEvent (event : JsonEvent) (serverNow : String) (nextId : Int) : SqliteRow where
  id := nextId
  name := orNull event.name
  type := orNull event.type
  district := orNull event.district
  upazila := orNull event.upazila
  village := orNull event.village
  address := orNull event.address
  date_range := orNull event.date_range
  start_time := orNull event.start_time
  iftar_time := orNull event.iftar_time
  contact := orNull event.contact
  description := orNull event.description
  image_url := orNull event.image_url
  lat := event.lat
  lng := event.lng
  link_url := orNull event.link_url
  event_date := orNull event.event_date
  event_day := orNull event.event_day
  created_at := some (match orNull event.created_at with
    | some s => s
    | none => serverNow)

/-- SQLite value ordering on the nullable text column created_at: NULL
orders strictly below every string, and strings compare by their code
units. -/
def sqliteLt : Option String → Option String → Bool
  | none, none => false
  | none, some _ => true
  | some _, none => false
  | some a, some b => decide (a < b)

/-- The GET /api/events handler: SELECT star FROM events ORDER BY
created_at DESC, modelled as a stable sort of the table rows descending
in the SQLite ordering of created_at. -/
def apiEventsGet (table : List SqliteRow) : List SqliteRow :=
  table.mergeSort (fun a b => !sqliteLt a.created_at b.created_at)

/-- Response of the local events API handlers: a success JSON body or an
error status with a message field. -/
inductive ApiResponse where
  | ok
  | dbError (msg : String)
deriving DecidableEq

/-- The POST /api/events/delete handler: a 500 when the database never
initialised, a 500 when the DELETE statement itself throws, and otherwise
a success response after removing the rows whose id matches, whether or
not any row did. -/
def apiEventsDelete (db : Option (List SqliteRow)) (id : Int) (stmtFails : Bool) :
    ApiResponse × Option (List SqliteRow) :=
  match db with
  | none => (ApiResponse.dbError "Database not initialized", none)
  | some table =>
    if stmtFails then (ApiResponse.dbError "Failed to delete event", some table)
    else (ApiResponse.ok, some (table.filter (fun r => r.id != id)))

/-- The search filters state of the listing page: a district chosen from
a fixed list, free-text upazila and village, and an event type. -/
structure Filters where
  district : String
  upazila : String
  village : String
  type : String
deriving DecidableEq

/-- Test whether the second character list starts with the first. -/
def startsWithChars : List Char → List Char → Bool
  | [], _ => true
  | _ :: _, [] => false
  | p :: ps, c :: cs => p == c && startsWithChars ps cs

/-- Test whether the second character list occurs contiguously inside the
first. -/
def hasSubstr (hay pat : List Char) : Bool :=
  match hay with
  | [] => pat.isEmpty
  | _ :: rest => startsWithChars pat hay || hasSubstr rest pat

/-- Case-insensitive substring test mirroring the JavaScript idiom
value.toLowerCase().includes(pattern.toLowerCase()). -/
def containsCI (value pat : String) : Bool :=
  hasSubstr (value.data.map Char.toLower) (pat.data.map Char.toLower)

/-- An event document as read back from the secondary store in the
fallback path: Firestore documents are schemaless, so every field may be
absent; the id comes from the document handle. -/
structure Event where
  id : JsId
  name : Option String
  type : Option String
  district : Option String
  upazila : Option String
  village : Option String
  address : Option String
  date_range : Option String
  start_time : Option String
  iftar_time : Option String
  contact : Option String
  description : Option String
  image_url : Option String
  lat : Option ℚ
  lng : Option ℚ
  link_url : Option String
  event_date : Option String
  event_day : Option String
  created_at : Option String
deriving DecidableEq

/-- Client-side filter predicate applied to each document in the
secondary-store fallback of fetchEvents: district and type by exact
equality, upazila and village by case-insensitive substring containment,
where a document missing the field fails any active filter on it (the
optional-chained lowercase call yields undefined, which is falsy). -/
def matchesFilters (filters : Filters) (data : Event) : Bool :=
  (filters.district == "" || data.district == some filters.district) &&
  (filters.type == "" || data.type == some filters.type) &&
  (filters.upazila == "" ||
    (match data.upazila with
     | some u => containsCI u filters.upazila
     | none => false)) &&
  (filters.village == "" ||
    (match data.village with
     | some v => containsCI v filters.village
     | none => false))

/-- Sort key of the fallback comparator: the numeric time obtained from a
present created_at string by the Date parse (modelled by an arbitrary
parse function into the non-negative timeline) and 0, the epoch and
earliest representable value, for a missing one. -/
def jsTime (parse : String → Nat) : Option String → Nat
  | some s => parse s
  | none => 0

/-- The fallback sort: a stable sort by the comparator that subtracts the
two keys so that larger creation times come first. -/
def sortByCreatedDesc (parse : String → Nat) (l : List Event) : List Event :=
  l.mergeSort (fun a b => decide (jsTime parse b.created_at ≤ jsTime parse a.created_at))

/-- The query descriptor fetchEvents pushes down to the primary store:
select everything, order by created_at descending, an equality filter per
active district and type filter, and a case-insensitive pattern filter
per active upazila and village filter. -/
structure SupabaseQuery where
  orderField : String
  ascending : Bool
  eqFilters : List (String × String)
  ilikeFilters : List (String × String)
deriving DecidableEq

/-- Builder of the pushed-down primary-store query, one clause per active
filter in source order. -/
def buildQuery (filters : Filters) : SupabaseQuery where
  orderField := "created_at"
  ascending := false
  eqFilters :=
    (if filters.district != "" then [("district", filters.district)] else []) ++
    (if filters.type != "" then [("type", filters.type)] else [])
  ilikeFilters :=
    (if filters.upazila != "" then [("upazila", "%" ++ filters.upazila ++ "%")] else []) ++
    (if filters.village != "" then [("village", "%" ++ filters.village ++ "%")] else [])

/-- Backends a read can touch. -/
inductive ReadBackend where
  | supabaseRead
  | firebaseRead
  | cacheRead
deriving DecidableEq

/-- Observable result of a run of fetchEvents: the backends consulted in
order, the events state that was set, and whether both sources failed
(in which case the events state is simply not updated). -/
structure FetchOutcome where
  consulted : List ReadBackend
  events : List Event
  failed : Bool
deriving DecidableEq

/-- Shallow embedding of fetchEvents. The primary store is queried with
the filters pushed down, and its answer to that query is taken as is; on
any primary error the secondary store is asked for its unfiltered
snapshot, which is filtered client-side with the same predicates and then
sorted descending by creation time; if the secondary also fails the error
is only logged. The local cache is never consulted on a read. -/
def fetchEvents (filters : Filters) (parse : String → Nat)
    (primary : Except Unit (List Event))
    (secondary : Except Unit (List Event)) : FetchOutcome :=
  match primary with
  | Except.ok data =>
    { consulted := [ReadBackend.supabaseRead], events := data, failed := false }
  | Except.error _ =>
    match secondary with
    | Except.ok docs =>
      { consulted := [ReadBackend.supabaseRead, ReadBackend.firebaseRead]
        events := sortByCreatedDesc parse (docs.filter (matchesFilters filters))
        failed := false }
    | Except.error _ =>
      { consulted := [ReadBackend.supabaseRead, ReadBackend.firebaseRead]
        events := []
        failed := true }

/-- The event identifiers held by each persistence backend. -/
structure Stores where
  supabaseEvents : List JsId
  firebaseEvents : List String
  sqliteEvents : List JsId
deriving DecidableEq

/-- Backend calls the delete flow can make. -/
inductive BackendCall where
  | supabaseDelete
  | firebaseDelete
  | cacheDelete
deriving DecidableEq

/-- Possible outcomes of the local-cache delete call: a success response,
an error HTTP response (the fetch promise still resolves and the handler
never looks at the response), or a network-level rejection of the fetch
itself. -/
inductive CacheOutcome where
  | ok
  | httpError
  | networkThrow
deriving DecidableEq

/-- Behaviour of the backends during one run of the delete flow. -/
structure DeleteEnv where
  supabaseError : Bool
  firebaseFails : Bool
  cacheOutcome : CacheOutcome
deriving DecidableEq

/-- User-visible end state of a run of deleteEvent: the wrong-password
alert, a silent return after the declined confirm dialog, the generic
error alert from the outer catch, or the list refresh of the success
path. -/
inductive DeleteResult where
  | wrongPassword
  | cancelled
  | errorAlert
  | refreshed
deriving DecidableEq

/-- Observable result of a run of deleteEvent. -/
structure DeleteOutcome where
  calls : List BackendCall
  result : DeleteResult
  stores : Stores
deriving DecidableEq

/-- Shallow embedding of deleteEvent. The prompted password is compared
against the hardcoded secret and a mismatch aborts with an alert before
anything else; a declined confirm dialog also aborts silently. Then the
primary-store delete runs: its error throws to the outer catch, which
alerts. On primary success the secondary-store delete is attempted only
for a string identifier, inside its own try/catch that swallows the
failure. The local-cache delete call is then issued unconditionally with
no surrounding try/catch of its own, so an error response is ignored but
a network-level rejection propagates to the outer catch; otherwise the
list is refreshed. -/
def deleteEvent (password : String) (confirmed : Bool) (id : JsId)
    (env : DeleteEnv) (s : Stores) : DeleteOutcome :=
  if password != "0179215718" then
    { calls := [], result := DeleteResult.wrongPassword, stores := s }
  else if !confirmed then
    { calls := [], result := DeleteResult.cancelled, stores := s }
  else if env.supabaseError then
    { calls := [BackendCall.supabaseDelete], result := DeleteResult.errorAlert, stores := s }
  else
    let s1 : Stores := { s with supabaseEvents := s.supabaseEvents.filter (fun x => x != id) }
    let fb : List BackendCall × Stores :=
      match id with
      | JsId.str docId =>
        ([BackendCall.firebaseDelete],
         if env.firebaseFails then s1
         else { s1 with firebaseEvents := s1.firebaseEvents.filter (fun x => x != docId) })
      | JsId.num _ => ([], s1)
    let s2 : Stores :=
      match env.cacheOutcome with
      | CacheOutcome.ok => { fb.2 with sqliteEvents := fb.2.sqliteEvents.filter (fun x => x != id) }
      | _ => fb.2
    { calls := BackendCall.supabaseDelete :: fb.1 ++ [BackendCall.cacheDelete]
      result :=
        match env.cacheOutcome with
        | CacheOutcome.networkThrow => DeleteResult.errorAlert
        | _ => DeleteResult.refreshed
      stores := s2 }

/-- A folder visible to the drive API. -/
structure DriveFolder where
  name : String
  trashed : Bool
  id : Nat
deriving DecidableEq

/-- A file created by the drive export: its name, parent folder, the
serialised event payload it contains, and its drive id. -/
structure DriveFile where
  name : String
  parent : Nat
  content : JsonEvent
  id : Nat
deriving DecidableEq

/-- The per-user drive contents, with a fresh-id counter standing for the
identifiers the drive service assigns. -/
structure DriveState where
  folders : List DriveFolder
  files : List DriveFile
  nextId : Nat
deriving DecidableEq

/-- JavaScript template-string rendering of a possibly-undefined field,
as used when the file name is assembled. -/
def jsDisplay : Option String → String
  | some s => s
  | none => "undefined"

/-- Body of the POST /api/drive/save response. -/
inductive DriveSaveBody where
  | errorMsg (msg : String)
  | saved (fileId : Nat)
deriving DecidableEq

/-- Observable result of a run of the drive-save handler. -/
structure DriveSaveOutcome where
  status : Nat
  body : DriveSaveBody
  driveCalled : Bool
  state : DriveState
deriving DecidableEq

/-- Folder lookup of the handler: the first folder matching the fixed
query, name equal to Iftar Shondhane and not trashed. -/
def findFolder (st : DriveState) : Option DriveFolder :=
  (st.folders.filter (fun f => f.name == "Iftar Shondhane" && !f.trashed)).head?

/-- Shallow embedding of POST /api/drive/save. A session without tokens
is rejected with 401 and the not-connected error body before any drive
call. With tokens, any rejection of the drive API calls is turned into a
500 by the single try/catch; otherwise the handler reuses the first
non-trashed folder with the fixed name or creates it, then always creates
one new file whose name joins the event name and the current time and
whose content is the full serialised event payload. -/
def driveSave (tokens : Option String) (eventData : JsonEvent) (now : Nat)
    (apiFails : Bool) (st : DriveState) : DriveSaveOutcome :=
  match tokens with
  | none =>
    { status := 401
      body := DriveSaveBody.errorMsg "Not connected to Google Drive"
      driveCalled := false
      state := st }
  | some _ =>
    if apiFails then
      { status := 500
        body := DriveSaveBody.errorMsg "Failed to save to Drive"
        driveCalled := true
        state := st }
    else
      let found := findFolder st
      let folderId := match found with
        | some f => f.id
        | none => st.nextId
      let st1 : DriveState := match found with
        | some _ => st
        | none =>
          { st with
            folders := st.folders ++ [{ name := "Iftar Shondhane", trashed := false, id := st.nextId }]
            nextId := st.nextId + 1 }
      let newFile : DriveFile :=
        { name := jsDisplay eventData.name ++ "_" ++ toString now ++ ".json"
          parent := folderId
          content := eventData
          id := st1.nextId }
      { status := 200
        body := DriveSaveBody.saved newFile.id
        driveCalled := true
        state := { st1 with files := st1.files ++ [newFile], nextId := st1.nextId + 1 } }

/-- Numeric value of a list of decimal digit characters. -/
def digitsToNat (l : List Char) : Nat :=
  l.foldl (fun n c => 10 * n + (c.toNat - 48)) 0

/-- Model of the JavaScript parseFloat builtin on the decimal forms it is
fed from the coordinate inputs: optional leading whitespace and sign,
then digits with an optional fractional part; a string with no such
leading numeric literal parses to NaN. -/
def jsParseFloat (s : String) : JsNum :=
  let cs := s.data.dropWhile (fun c => c == ' ' || c == '\t' || c == '\n' || c == '\r')
  let signAndRest : ℚ × List Char :=
    match cs with
    | '-' :: rest => (-1, rest)
    | '+' :: rest => (1, rest)
    | _ => (1, cs)
  let intDigits := signAndRest.2.takeWhile Char.isDigit
  let afterInt := signAndRest.2.dropWhile Char.isDigit
  let fracDigits : List Char :=
    match afterInt with
    | '.' :: r => r.takeWhile Char.isDigit
    | _ => []
  if intDigits.isEmpty && fracDigits.isEmpty then JsNum.nan
  else
    JsNum.num (signAndRest.1 *
      ((digitsToNat intDigits : ℚ) +
        (digitsToNat fracDigits : ℚ) / (10 : ℚ) ^ fracDigits.length))

/-- The onChange handler of the latitude input: the form state receives
the parseFloat of the raw text. -/
def setLat (f : EventForm) (s : String) : EventForm :=
  { f with lat := some (jsParseFloat s) }

/-- The onChange handler of the longitude input: the form state receives
the parseFloat of the raw text. -/
def setLng (f : EventForm) (s : String) : EventForm :=
  { f with lng := some (jsParseFloat s) }

/-- A concrete filled form used by the witness theorems. -/
def sampleForm : EventForm where
  name := "Community Iftar"
  type := "public_iftar"
  district := "Dhaka"
  upazila := "Sonatola"
  village := "Uttar Para"
  address := "Main road"
  date_range := ""
  start_time := "after asr"
  iftar_time := ""
  contact := "017XXXXXXXX"
  description := ""
  image_url := ""
  lat := none
  lng := none
  link_url := ""
  event_date := "10 Ramadan"
  event_day := "Monday"

/-- A concrete all-healthy backend environment for witness theorems. -/
def okEnv : SubmitEnv where
  supabaseError := false
  firebaseFails := false
  cacheFails := false
  driveFails := false

/-- A concrete environment whose primary-store insert fails. -/
def failEnv : SubmitEnv where
  supabaseError := true
  firebaseFails := false
  cacheFails := false
  driveFails := false

/-- A concrete secondary-store document used by witness theorems. -/
def sampleDoc : Event where
  id := JsId.str "abc123"
  name := some "Community Iftar"
  type := some "public_iftar"
  district := some "Dhaka"
  upazila := some "Sonatola"
  village := some "Uttar Para"
  address := some "Main road"
  date_range := none
  start_time := none
  iftar_time := none
  contact := none
  description := none
  image_url := none
  lat := none
  lng := none
  link_url := none
  event_date := some "10 Ramadan"
  event_day := none
  created_at := some "2026-03-01T00:00:00.000Z"

/-- A concrete filter combination used by witness theorems. -/
def sampleFilters : Filters where
  district := "Dhaka"
  upazila := "Sona"
  village := ""
  type := ""

/-- A concrete local-cache row used by witness theorems. -/
def sampleRow : SqliteRow where
  id := 1
  name := some "Community Iftar"
  type := some "public_iftar"
  district := some "Dhaka"
  upazila := some "Sonatola"
  village := some "Uttar Para"
  address := some "Main road"
  date_range := none
  start_time := none
  iftar_time := none
  contact := none
  description := none
  image_url := none
  lat := none
  lng := none
  link_url := none
  event_date := some "10 Ramadan"
  event_day := none
  created_at := some "2026-03-01T00:00:00.000Z"

/-- A concrete drive state holding the fixed-name folder, for witnesses. -/
def sampleDriveState : DriveState where
  folders := [{ name := "Iftar Shondhane", trashed := false, id := 7 }]
  files := []
  nextId := 10

/-- Totality of the negated SQLite comparison: two column values are
never each strictly below the other. -/
theorem sqliteLt_asymm_total (a b : Option String) :
    (!sqliteLt a b || !sqliteLt b a) = true := by
  cases a <;> cases b <;> simp [sqliteLt]
  exact le_total _ _

/-- Transitivity of the negated SQLite comparison. -/
theorem sqliteLt_not_trans (a b c : Option String)
    (hab : (!sqliteLt a b) = true) (hbc : (!sqliteLt b c) = true) :
    (!sqliteLt a c) = true := by
  cases a <;> cases b <;> cases c <;> simp_all [sqliteLt]
  exact le_trans hbc hab

/-- One successful drive export always appends exactly one file. -/
theorem driveSave_adds_one_file (t : String) (eventData : JsonEvent) (now : Nat)
    (st : DriveState) :
    (driveSave (some t) eventData now false st).state.files.length =
      st.files.length + 1 := by
  cases h : findFolder st <;> simp [driveSave, h]

/-- C1: in handleSubmit, a primary-store insert failure makes the whole
operation return failure with no secondary-store, local-cache or drive
write attempted, and a primary-store success makes it return success
whatever the secondary store, the cache or the drive export do. -/
theorem handleSubmit_primary_decides (form : EventForm) (now : String)
    (gc : Bool) (env : SubmitEnv) :
    (handleSubmit form now gc env).success = !env.supabaseError ∧
    (env.supabaseError = true →
      (handleSubmit form now gc env).firebaseWrite = none ∧
      (handleSubmit form now gc env).cacheWrite = none ∧
      (handleSubmit form now gc env).driveWrite = none) := by
  cases h : env.supabaseError <;> simp [handleSubmit, h]

/-- Witness for C1 at concrete failing and healthy environments. -/
theorem handleSubmit_primary_decides_witness :
    (handleSubmit sampleForm "2026-03-01T00:00:00.000Z" true failEnv).driveWrite = none ∧
    (handleSubmit sampleForm "2026-03-01T00:00:00.000Z" true okEnv).success =
      !okEnv.supabaseError := by
  exact ⟨((handleSubmit_primary_decides sampleForm "2026-03-01T00:00:00.000Z" true
      failEnv).2 (by decide)).2.2,
    (handleSubmit_primary_decides sampleForm "2026-03-01T00:00:00.000Z" true okEnv).1⟩

/-- C2: when the primary query errors, fetchEvents answers from the
secondary-store snapshot filtered client-side — never from the local
cache — and every event of the fallback result satisfies all active
predicates: district and type by exact equality, upazila and village by
case-insensitive substring containment. -/
theorem fetchEvents_fallback_filters (filters : Filters) (parse : String → Nat)
    (docs : List Event) (e : Event)
    (he : e ∈ (fetchEvents filters parse (Except.error ()) (Except.ok docs)).events) :
    (∀ primary secondary,
      ReadBackend.cacheRead ∉ (fetchEvents filters parse primary secondary).consulted) ∧
    (filters.district ≠ "" → e.district = some filters.district) ∧
    (filters.type ≠ "" → e.type = some filters.type) ∧
    (filters.upazila ≠ "" → ∃ u, e.upazila = some u ∧ containsCI u filters.upazila = true) ∧
    (filters.village ≠ "" → ∃ v, e.village = some v ∧ containsCI v filters.village = true) := by
  have hmem : e ∈ docs.filter (matchesFilters filters) := by
    have hperm := List.mergeSort_perm (docs.filter (matchesFilters filters))
      (fun a b => decide (jsTime parse b.created_at ≤ jsTime parse a.created_at))
    exact hperm.mem_iff.mp (by simpa [fetchEvents, sortByCreatedDesc] using he)
  have hmatch : matchesFilters filters e = true := (List.mem_filter.mp hmem).2
  rw [matchesFilters] at hmatch
  simp only [Bool.and_eq_true, Bool.or_eq_true, beq_iff_eq] at hmatch
  obtain ⟨⟨⟨hd, ht⟩, hu⟩, hv⟩ := hmatch
  refine ⟨?_, ?_, ?_, ?_, ?_⟩
  · intro primary secondary
    cases primary <;> cases secondary <;> simp [fetchEvents]
  · intro h
    exact hd.resolve_left h
  · intro h
    exact ht.resolve_left h
  · intro h
    have h' := hu.resolve_left h
    cases hup : e.upazila with
    | none => rw [hup] at h'; exact absurd h' (by simp)
    | some u => rw [hup] at h'; exact ⟨u, rfl, h'⟩
  · intro h
    have h' := hv.resolve_left h
    cases hvp : e.village with
    | none => rw [hvp] at h'; exact absurd h' (by simp)
    | some v => rw [hvp] at h'; exact ⟨v, rfl, h'⟩

/-- Witness for C2 at a concrete fallback run with active district and
upazila filters. -/
theorem fetchEvents_fallback_filters_witness :
    sampleDoc.district = some "Dhaka" ∧
    (∃ u, sampleDoc.upazila = some u ∧ containsCI u "Sona" = true) := by
  have hmem0 : sampleDoc ∈
      (fetchEvents sampleFilters (fun _ => 0) (Except.error ()) (Except.ok [sampleDoc])).events := by
    simp only [fetchEvents, sortByCreatedDesc, List.mem_mergeSort]
    decide
  have h := fetchEvents_fallback_filters sampleFilters (fun _ => 0) [sampleDoc]
    sampleDoc hmem0
  exact ⟨h.2.1 (by decide), h.2.2.2.1 (by decide)⟩

/-- C3: the secondary-store fallback result is sorted non-increasingly by
the time value of created_at with a missing timestamp keyed to 0, the
earliest time, so it sorts last; the local-cache listing is sorted
non-increasingly in the SQLite ordering of created_at, in which NULL is
strictly below every string, so it sorts last; and the primary path
pushes a descending created_at order down to the remote store. -/
theorem listing_order (filters : Filters) (parse : String → Nat)
    (docs : List Event) (table : List SqliteRow) :
    ((fetchEvents filters parse (Except.error ()) (Except.ok docs)).events.Pairwise
      (fun a b => jsTime parse b.created_at ≤ jsTime parse a.created_at) ∧
     (fetchEvents filters parse (Except.error ()) (Except.ok docs)).events.Perm
       (docs.filter (matchesFilters filters)) ∧
     jsTime parse none = 0 ∧
     (∀ o : Option String, 0 ≤ jsTime parse o)) ∧
    ((apiEventsGet table).Pairwise
      (fun a b => sqliteLt a.created_at b.created_at = false) ∧
     (apiEventsGet table).Perm table ∧
     (∀ v : Option String, sqliteLt v none = false)) ∧
    ((buildQuery filters).orderField = "created_at" ∧
     (buildQuery filters).ascending = false) := by
  refine ⟨⟨?_, ?_, rfl, fun o => Nat.zero_le _⟩, ⟨?_, ?_, ?_⟩, rfl, rfl⟩
  · have hs := @List.sorted_mergeSort Event
      (fun a b : Event => decide (jsTime parse b.created_at ≤ jsTime parse a.created_at))
      (fun a b c hab hbc => by
        simp only [decide_eq_true_eq] at *
        exact le_trans hbc hab)
      (fun a b => by
        simp only [Bool.or_eq_true, decide_eq_true_eq]
        exact (Nat.le_total (jsTime parse b.created_at) (jsTime parse a.created_at)))
      (docs.filter (matchesFilters filters))
    simp only [fetchEvents, sortByCreatedDesc]
    exact hs.imp (fun h => by simpa using h)
  · simp only [fetchEvents, sortByCreatedDesc]
    exact List.mergeSort_perm _ _
  · have hs := @List.sorted_mergeSort SqliteRow
      (fun a b : SqliteRow => !sqliteLt a.created_at b.created_at)
      (fun a b c hab hbc => sqliteLt_not_trans _ _ _ hab hbc)
      (fun a b => sqliteLt_asymm_total _ _)
      table
    exact hs.imp (fun h => by simpa using h)
  · exact List.mergeSort_perm _ _
  · intro v
    cases v <;> rfl

/-- C4: a delete attempt whose prompted secret differs from the hardcoded
value aborts with the wrong-password alert before any backend call, and
every store is left unchanged. -/
theorem deleteEvent_wrong_secret (pw : String) (conf : Bool) (id : JsId)
    (env : DeleteEnv) (s : Stores) (h : pw ≠ "0179215718") :
    (deleteEvent pw conf id env s).calls = [] ∧
    (deleteEvent pw conf id env s).stores = s ∧
    (deleteEvent pw conf id env s).result = DeleteResult.wrongPassword := by
  have hb : (pw != "0179215718") = true := by simpa [bne_iff_ne] using h
  simp [deleteEvent, hb]

/-- Witness for C4 at a concrete wrong secret. -/
theorem deleteEvent_wrong_secret_witness :
    (deleteEvent "1234" true (JsId.num 5)
      { supabaseError := false, firebaseFails := false, cacheOutcome := CacheOutcome.ok }
      { supabaseEvents := [JsId.num 5], firebaseEvents := [], sqliteEvents := [JsId.num 5] }).calls
      = [] := by
  exact (deleteEvent_wrong_secret "1234" true (JsId.num 5) _ _ (by decide)).1

/-- C5 counterexample: with the correct secret, a confirmed dialog, a
numeric identifier and a healthy primary store, a network-level rejection
of the local-cache delete call is not swallowed: deleteEvent ends in the
surfaced error alert instead of the list refresh. -/
theorem deleteEvent_cache_throw_surfaces :
    (deleteEvent "0179215718" true (JsId.num 5)
      { supabaseError := false, firebaseFails := false
        cacheOutcome := CacheOutcome.networkThrow }
      { supabaseEvents := [JsId.num 5], firebaseEvents := []
        sqliteEvents := [JsId.num 5] }).result = DeleteResult.errorAlert ∧
    (deleteEvent "0179215718" true (JsId.num 5)
      { supabaseError := false, firebaseFails := false
        cacheOutcome := CacheOutcome.networkThrow }
      { supabaseEvents := [JsId.num 5], firebaseEvents := []
        sqliteEvents := [JsId.num 5] }).result ≠ DeleteResult.refreshed := by
  decide

/-- C5 amended: after the secret gate passes and the dialog is confirmed,
a primary-store delete failure surfaces the error alert with no secondary
or cache delete attempted; the secondary delete is attempted exactly when
the identifier is a string and its failure is swallowed; the cache delete
is attempted unconditionally, and an error response from it is ignored,
but a network-level rejection of that call propagates to the shared catch
and surfaces the error alert. -/
theorem deleteEvent_backend_policy (id : JsId) (env : DeleteEnv) (s : Stores) :
    (env.supabaseError = true →
      (deleteEvent "0179215718" true id env s).calls = [BackendCall.supabaseDelete] ∧
      (deleteEvent "0179215718" true id env s).result = DeleteResult.errorAlert ∧
      (deleteEvent "0179215718" true id env s).stores = s) ∧
    (env.supabaseError = false →
      BackendCall.cacheDelete ∈ (deleteEvent "0179215718" true id env s).calls ∧
      ((BackendCall.firebaseDelete ∈ (deleteEvent "0179215718" true id env s).calls) ↔
        ∃ d, id = JsId.str d) ∧
      (env.cacheOutcome ≠ CacheOutcome.networkThrow →
        (deleteEvent "0179215718" true id env s).result = DeleteResult.refreshed) ∧
      (env.cacheOutcome = CacheOutcome.networkThrow →
        (deleteEvent "0179215718" true id env s).result = DeleteResult.errorAlert)) := by
  constructor
  · intro h
    simp [deleteEvent, h]
  · intro h
    refine ⟨?_, ?_, ?_, ?_⟩
    · cases id <;> simp [deleteEvent, h]
    · cases id <;> simp [deleteEvent, h]
    · intro hc
      cases hco : env.cacheOutcome <;> simp_all [deleteEvent]
    · intro hc
      simp [deleteEvent, h, hc]

/-- Witness for the amended C5 at concrete healthy backends. -/
theorem deleteEvent_backend_policy_witness :
    (deleteEvent "0179215718" true (JsId.num 5)
      { supabaseError := false, firebaseFails := false, cacheOutcome := CacheOutcome.ok }
      { supabaseEvents := [JsId.num 5], firebaseEvents := []
        sqliteEvents := [JsId.num 5] }).result = DeleteResult.refreshed := by
  exact ((deleteEvent_backend_policy (JsId.num 5) _ _).2 rfl).2.2.1 (by decide)

/-- C6 counterexample: with a drive account connected and every backend
healthy, the drive write of handleSubmit receives the raw form data,
which carries no created_at, so the copies written by one submission do
not all share the client-assigned creation timestamp. -/
theorem handleSubmit_drive_copy_lacks_timestamp :
    (handleSubmit sampleForm "2026-03-01T00:00:00.000Z" true okEnv).driveWrite =
      some (serializeEventForm sampleForm) ∧
    (serializeEventForm sampleForm).created_at = none ∧
    ¬ (∀ p ∈ (handleSubmit sampleForm "2026-03-01T00:00:00.000Z" true okEnv).payloads,
        p.created_at = some "2026-03-01T00:00:00.000Z") := by
  refine ⟨rfl, rfl, ?_⟩
  intro h
  have hmem : serializeEventForm sampleForm ∈
      (handleSubmit sampleForm "2026-03-01T00:00:00.000Z" true okEnv).payloads := by
    decide
  have := h (serializeEventForm sampleForm) hmem
  exact absurd this (by simp [serializeEventForm])

/-- C6 amended: a single submission reuses the client-assigned created_at
identically across the primary-store, secondary-store and local-cache
writes, and the cache row stores that same timestamp; the drive export,
when a drive account is connected, receives the same field values but
without the creation timestamp. -/
theorem handleSubmit_shared_timestamp (form : EventForm) (now : String)
    (gc : Bool) (env : SubmitEnv) (serverNow : String) (nid : Int)
    (hnow : now ≠ "") (hok : env.supabaseError = false) :
    (handleSubmit form now gc env).supabaseWrite = some (serializeNewEvent ⟨form, now⟩) ∧
    (handleSubmit form now gc env).firebaseWrite = some (serializeNewEvent ⟨form, now⟩) ∧
    (handleSubmit form now gc env).cacheWrite = some (serializeNewEvent ⟨form, now⟩) ∧
    (serializeNewEvent ⟨form, now⟩).created_at = some now ∧
    (insertEvent (serializeNewEvent ⟨form, now⟩) serverNow nid).created_at = some now ∧
    (gc = true →
      (handleSubmit form now gc env).driveWrite = some (serializeEventForm form) ∧
      serializeEventForm form =
        { serializeNewEvent ⟨form, now⟩ with created_at := none }) := by
  refine ⟨?_, ?_, ?_, rfl, ?_, ?_⟩
  · simp [handleSubmit, hok]
  · simp [handleSubmit, hok]
  · simp [handleSubmit, hok]
  · simp [insertEvent, serializeNewEvent, orNull, hnow]
  · intro hgc
    refine ⟨by simp [handleSubmit, hok, hgc], rfl⟩

/-- Witness for the amended C6 at a concrete submission. -/
theorem handleSubmit_shared_timestamp_witness :
    (handleSubmit sampleForm "2026-03-01T00:00:00.000Z" true okEnv).cacheWrite =
      some (serializeNewEvent ⟨sampleForm, "2026-03-01T00:00:00.000Z"⟩) ∧
    (insertEvent (serializeNewEvent ⟨sampleForm, "2026-03-01T00:00:00.000Z"⟩)
      "2026-03-02T00:00:00.000Z" 1).created_at = some "2026-03-01T00:00:00.000Z" := by
  have h := handleSubmit_shared_timestamp sampleForm "2026-03-01T00:00:00.000Z" true okEnv
    "2026-03-02T00:00:00.000Z" 1 (by decide) (by decide)
  exact ⟨h.2.2.1, h.2.2.2.2.1⟩

/-- C7: a drive-save request whose session holds no tokens is answered
401 with exactly the not-connected error body, no drive call is made and
the drive state is untouched; with tokens present, a drive API failure is
answered 500. -/
theorem driveSave_auth_gate (tokens : Option String) (eventData : JsonEvent)
    (now : Nat) (apiFails : Bool) (st : DriveState) :
    (tokens = none →
      driveSave tokens eventData now apiFails st =
        { status := 401
          body := DriveSaveBody.errorMsg "Not connected to Google Drive"
          driveCalled := false
          state := st }) ∧
    (∀ t, tokens = some t → apiFails = true →
      (driveSave tokens eventData now apiFails st).status = 500) := by
  constructor
  · rintro rfl
    rfl
  · rintro t rfl rfl
    rfl

/-- Witness for C7 at a concrete unauthenticated request and a concrete
drive failure. -/
theorem driveSave_auth_gate_witness :
    (driveSave none (serializeEventForm sampleForm) 99 false sampleDriveState).status = 401 ∧
    (driveSave (some "tok") (serializeEventForm sampleForm) 99 true sampleDriveState).status
      = 500 := by
  constructor
  · exact congrArg DriveSaveOutcome.status
      ((driveSave_auth_gate none (serializeEventForm sampleForm) 99 false
        sampleDriveState).1 rfl)
  · exact (driveSave_auth_gate (some "tok") (serializeEventForm sampleForm) 99 true
      sampleDriveState).2 "tok" rfl rfl

/-- C8: with a token and a healthy drive API the export reuses the first
non-trashed folder with the fixed name Iftar Shondhane or creates one,
then always appends one new file named from the event name and the
current export time and containing the full serialised event payload;
a repeated export appends yet another file, so the operation is not
idempotent. -/
theorem driveSave_export (t : String) (eventData : JsonEvent) (now later : Nat)
    (st : DriveState) :
    (driveSave (some t) eventData now false st).status = 200 ∧
    (∀ f, findFolder st = some f →
      (driveSave (some t) eventData now false st).state.folders = st.folders ∧
      (driveSave (some t) eventData now false st).state.files =
        st.files ++ [{ name := jsDisplay eventData.name ++ "_" ++ toString now ++ ".json"
                       parent := f.id
                       content := eventData
                       id := st.nextId }]) ∧
    (findFolder st = none →
      (driveSave (some t) eventData now false st).state.folders =
        st.folders ++ [{ name := "Iftar Shondhane", trashed := false, id := st.nextId }] ∧
      (driveSave (some t) eventData now false st).state.files =
        st.files ++ [{ name := jsDisplay eventData.name ++ "_" ++ toString now ++ ".json"
                       parent := st.nextId
                       content := eventData
                       id := st.nextId + 1 }]) ∧
    (driveSave (some t) eventData later false
        (driveSave (some t) eventData now false st).state).state.files.length =
      st.files.length + 2 := by
  refine ⟨rfl, ?_, ?_, ?_⟩
  · intro f hf
    constructor <;> simp [driveSave, hf]
  · intro hf
    constructor <;> simp [driveSave, hf]
  · rw [driveSave_adds_one_file, driveSave_adds_one_file]

/-- Witness for C8 at a concrete state already holding the folder. -/
theorem driveSave_export_witness :
    (driveSave (some "tok") (serializeEventForm sampleForm) 99 false
      sampleDriveState).state.files =
      [{ name := "Community Iftar_99.json"
         parent := 7
         content := serializeEventForm sampleForm
         id := 10 }] := by
  have h := (driveSave_export "tok" (serializeEventForm sampleForm) 99 0
    sampleDriveState).2.1 { name := "Iftar Shondhane", trashed := false, id := 7 } (by decide)
  exact h.2.trans (by decide)

/-- C9: non-numeric text typed into the latitude or longitude field
parses to NaN, which every backend write serialises as an absent value;
the local-cache row stores the coordinate as NULL and the submission
still succeeds, with no validation error surfaced. -/
theorem malformed_coordinates_coerced (form : EventForm) (s1 s2 : String)
    (now serverNow : String) (gc : Bool) (env : SubmitEnv) (nid : Int)
    (h1 : jsParseFloat s1 = JsNum.nan) (h2 : jsParseFloat s2 = JsNum.nan)
    (hok : env.supabaseError = false) :
    (serializeNewEvent ⟨setLng (setLat form s1) s2, now⟩).lat = none ∧
    (serializeNewEvent ⟨setLng (setLat form s1) s2, now⟩).lng = none ∧
    (insertEvent (serializeNewEvent ⟨setLng (setLat form s1) s2, now⟩) serverNow nid).lat
      = none ∧
    (insertEvent (serializeNewEvent ⟨setLng (setLat form s1) s2, now⟩) serverNow nid).lng
      = none ∧
    (handleSubmit (setLng (setLat form s1) s2) now gc env).success = true := by
  refine ⟨?_, ?_, ?_, ?_, ?_⟩ <;>
    simp [serializeNewEvent, serializeEventForm, insertEvent, setLat, setLng,
      h1, h2, jsonNum, handleSubmit, hok]

/-- Witness for C9 at concrete malformed coordinate strings. -/
theorem malformed_coordinates_coerced_witness :
    (serializeNewEvent ⟨setLng (setLat sampleForm "abc") "xyz",
      "2026-03-01T00:00:00.000Z"⟩).lat = none ∧
    (handleSubmit (setLng (setLat sampleForm "abc") "xyz")
      "2026-03-01T00:00:00.000Z" true okEnv).success = true := by
  have h := malformed_coordinates_coerced sampleForm "abc" "xyz"
    "2026-03-01T00:00:00.000Z" "2026-03-02T00:00:00.000Z" true okEnv 1
    (by decide) (by decide) (by decide)
  exact ⟨h.1, h.2.2.2.2⟩

/-- C10: deleting an identifier that is absent from the local cache still
answers success and leaves the table unchanged, and an error response can
only arise from an uninitialised database or a failing statement. -/
theorem apiEventsDelete_nonexistent (table : List SqliteRow) (id : Int)
    (hid : ∀ r ∈ table, r.id ≠ id) :
    (apiEventsDelete (some table) id false).1 = ApiResponse.ok ∧
    (apiEventsDelete (some table) id false).2 = some table ∧
    (∀ db i sf, (apiEventsDelete db i sf).1 ≠ ApiResponse.ok →
      db = none ∨ sf = true) := by
  refine ⟨rfl, ?_, ?_⟩
  · simp only [apiEventsDelete, if_neg Bool.false_ne_true, Option.some.injEq]
    exact List.filter_eq_self.mpr (fun r hr => by simpa [bne_iff_ne] using hid r hr)
  · intro db i sf h
    match db, sf with
    | none, _ => exact Or.inl rfl
    | some u, true => exact Or.inr rfl
    | some u, false => exact absurd rfl h

/-- Witness for C10 at a concrete one-row table and an absent id. -/
theorem apiEventsDelete_nonexistent_witness :
    (apiEventsDelete (some [sampleRow]) 2 false).1 = ApiResponse.ok ∧
    (apiEventsDelete (some [sampleRow]) 2 false).2 = some [sampleRow] := by
  have h := apiEventsDelete_nonexistent [sampleRow] 2 (by decide)
  exact ⟨h.1, h.2.1⟩

end IftarShondhane
